import Mathlib

/-!
Verification of the browser-side UI glue of ProductionSystem
(`src/productionsystem/webapp/resources/static/index.js`).

The file is shallowly embedded: JS numbers arising from integer counts are
modelled as `Nat`/`Int`, and JS division (`100 * count / njobs`) is modelled
over `ℚ` via `jsDiv`, whose `none` result stands for a non-finite IEEE value
(`Infinity` or `NaN`), which arises exactly when the divisor is `0`.
DOM/AJAX effects are modelled as explicit event traces, with the documented
semantics of the jQuery combinators (`$.ajax` issues one request per call,
`$.when(...).done(cont)` runs `cont` exactly when every joined deferred
resolves successfully).
-/

/-- A parametric-job row as delivered by `GET /requests/{id}/parametricjobs`:
integer ids and per-status counts, a status string and a reschedule flag. -/
structure ParametricJob where
  id : ℕ
  request_id : ℕ
  njobs : ℕ
  num_completed : ℕ
  num_failed : ℕ
  num_running : ℕ
  num_submitted : ℕ
  status : String
  reschedule : Bool
deriving DecidableEq, Repr

/-- JavaScript division on numbers that are mathematically rational:
`none` models a non-finite IEEE result (`Infinity` or `NaN`), which for
`a / b` with rational operands happens exactly when `b = 0`. -/
def jsDiv (a b : ℚ) : Option ℚ :=
  if b = 0 then none else some (a / b)

/-- One `<div class="progress-bar …">` segment of the rendered bar:
its CSS width percentage (`none` = non-finite) and its displayed count. -/
structure ProgressSegment where
  width : Option ℚ
  label : ℤ
deriving DecidableEq, Repr

/-- The rendered progress bar of `formatprogress`: the striped/active flag
and the five segments, in the order they appear in the HTML fragment. -/
structure ProgressBar where
  striped : Bool
  completed : ProgressSegment
  failed : ProgressSegment
  running : ProgressSegment
  submitted : ProgressSegment
  other : ProgressSegment
deriving DecidableEq, Repr

/-- The function `formatprogress(parametricjob)` from `index.js` (lines 3–31): computes
`striped`, the four `100 * count / njobs` percentages, the remainder
`num_other = njobs - (num_submitted + num_running + num_completed + num_failed)`
and its percentage, and renders the five segments. -/
def formatprogress (parametricjob : ParametricJob) : ProgressBar :=
  let striped := parametricjob.num_running + parametricjob.num_submitted > 0
  let percent_completed := jsDiv (100 * parametricjob.num_completed) parametricjob.njobs
  let percent_failed := jsDiv (100 * parametricjob.num_failed) parametricjob.njobs
  let percent_running := jsDiv (100 * parametricjob.num_running) parametricjob.njobs
  let percent_submitted := jsDiv (100 * parametricjob.num_submitted) parametricjob.njobs
  let num_other : ℤ := (parametricjob.njobs : ℤ) -
    ((parametricjob.num_submitted : ℤ) + (parametricjob.num_running : ℤ) +
      (parametricjob.num_completed : ℤ) + (parametricjob.num_failed : ℤ))
  let percent_other := jsDiv (100 * (num_other : ℚ)) parametricjob.njobs
  { striped := striped
    completed := ⟨percent_completed, parametricjob.num_completed⟩
    failed := ⟨percent_failed, parametricjob.num_failed⟩
    running := ⟨percent_running, parametricjob.num_running⟩
    submitted := ⟨percent_submitted, parametricjob.num_submitted⟩
    other := ⟨percent_other, num_other⟩ }

/-- The sub-table "status" column renderer (`index.js` lines 91–95):
`row.reschedule` selects between the literal "Rescheduled" and `row.status`. -/
def statusRender (row : ParametricJob) : String :=
  if row.reschedule then "Rescheduled" else row.status

/-- The reschedule glyph HTML built by the "reschedule" column renderer,
carrying the macro id and request id of the row. -/
def rescheduleGlyph (macroid request_id : ℕ) : String :=
  "<span class=\"glyphicon glyphicon-repeat text-primary reschedule\" style=\"cursor:pointer\" macroid=\""
    ++ toString macroid ++ "\" requestid=\"" ++ toString request_id ++ "\"></span>"

/-- The sub-table "reschedule" column renderer (`index.js` lines 96–100):
a glyph when `row.status` equals "Failed", the empty string otherwise. -/
def rescheduleRender (row : ParametricJob) : String :=
  if row.status = "Failed" then rescheduleGlyph row.id row.request_id else ""

/-- The worked example of the spec: njobs=10, completed=3, failed=2,
running=1, submitted=1. -/
def exampleJob : ParametricJob :=
  { id := 1, request_id := 1, njobs := 10, num_completed := 3, num_failed := 2,
    num_running := 1, num_submitted := 1, status := "Running", reschedule := false }

/-- A job record with `njobs = 0`, the division-by-zero edge case. -/
def zeroJob : ParametricJob :=
  { id := 2, request_id := 1, njobs := 0, num_completed := 0, num_failed := 0,
    num_running := 0, num_submitted := 0, status := "Submitted", reschedule := false }

/-- A job row whose raw status string is literally "Rescheduled" while its
reschedule flag is false. -/
def statusClashRow : ParametricJob :=
  { id := 3, request_id := 1, njobs := 1, num_completed := 0, num_failed := 0,
    num_running := 0, num_submitted := 0, status := "Rescheduled", reschedule := false }

/-- Claim C1: for every job-progress record with `njobs > 0` and
`num_completed + num_failed + num_running + num_submitted ≤ njobs`,
`formatprogress` renders an "other" segment labelled
`njobs - (num_submitted + num_running + num_completed + num_failed)` and five
finite segment percentages, each `100 * count / njobs`, summing to exactly 100. -/
theorem formatprogress_segments_sum_100 (p : ParametricJob) (h0 : 0 < p.njobs)
    (hsum : p.num_completed + p.num_failed + p.num_running + p.num_submitted ≤ p.njobs) :
    (formatprogress p).other.label =
      (p.njobs : ℤ) - ((p.num_submitted : ℤ) + (p.num_running : ℤ) +
        (p.num_completed : ℤ) + (p.num_failed : ℤ)) ∧
    (formatprogress p).completed.width = some (100 * (p.num_completed : ℚ) / (p.njobs : ℚ)) ∧
    (formatprogress p).failed.width = some (100 * (p.num_failed : ℚ) / (p.njobs : ℚ)) ∧
    (formatprogress p).running.width = some (100 * (p.num_running : ℚ) / (p.njobs : ℚ)) ∧
    (formatprogress p).submitted.width = some (100 * (p.num_submitted : ℚ) / (p.njobs : ℚ)) ∧
    (formatprogress p).other.width =
      some (100 * ((p.njobs : ℚ) - ((p.num_submitted : ℚ) + (p.num_running : ℚ) +
        (p.num_completed : ℚ) + (p.num_failed : ℚ))) / (p.njobs : ℚ)) ∧
    100 * (p.num_completed : ℚ) / (p.njobs : ℚ) + 100 * (p.num_failed : ℚ) / (p.njobs : ℚ) +
      100 * (p.num_running : ℚ) / (p.njobs : ℚ) + 100 * (p.num_submitted : ℚ) / (p.njobs : ℚ) +
      100 * ((p.njobs : ℚ) - ((p.num_submitted : ℚ) + (p.num_running : ℚ) +
        (p.num_completed : ℚ) + (p.num_failed : ℚ))) / (p.njobs : ℚ) = 100 := by
  have hn : ((p.njobs : ℚ)) ≠ 0 := by exact_mod_cast h0.ne'
  refine ⟨by simp [formatprogress], ?_, ?_, ?_, ?_, ?_, ?_⟩
  · simp [formatprogress, jsDiv, hn]
  · simp [formatprogress, jsDiv, hn]
  · simp [formatprogress, jsDiv, hn]
  · simp [formatprogress, jsDiv, hn]
  · simp [formatprogress, jsDiv, hn]
  · field_simp
    ring

/-- Claim C1 witness: the worked example of the spec (njobs=10, completed=3, failed=2,
running=1, submitted=1) yields other=3 and percentages 30/20/10/10/30. -/
theorem formatprogress_segments_sum_100_witness :
    (formatprogress exampleJob).completed.width = some 30 ∧
    (formatprogress exampleJob).failed.width = some 20 ∧
    (formatprogress exampleJob).running.width = some 10 ∧
    (formatprogress exampleJob).submitted.width = some 10 ∧
    (formatprogress exampleJob).other.width = some 30 ∧
    (formatprogress exampleJob).other.label = 3 ∧
    0 < exampleJob.njobs ∧
    (formatprogress exampleJob).other.label =
      (exampleJob.njobs : ℤ) - ((exampleJob.num_submitted : ℤ) +
        (exampleJob.num_running : ℤ) + (exampleJob.num_completed : ℤ) +
        (exampleJob.num_failed : ℤ)) :=
  ⟨by norm_num [formatprogress, jsDiv, exampleJob],
   by norm_num [formatprogress, jsDiv, exampleJob],
   by norm_num [formatprogress, jsDiv, exampleJob],
   by norm_num [formatprogress, jsDiv, exampleJob],
   by norm_num [formatprogress, jsDiv, exampleJob],
   by norm_num [formatprogress, exampleJob],
   by norm_num [exampleJob],
   (formatprogress_segments_sum_100 exampleJob (by norm_num [exampleJob])
      (by norm_num [exampleJob])).1⟩

/-- Claim C9: when `njobs = 0`, `formatprogress` divides by zero with no guard,
and all five segment percentages are non-finite (modelled as `none`). -/
theorem formatprogress_njobs_zero_nonfinite (p : ParametricJob) (h : p.njobs = 0) :
    (formatprogress p).completed.width = none ∧
    (formatprogress p).failed.width = none ∧
    (formatprogress p).running.width = none ∧
    (formatprogress p).submitted.width = none ∧
    (formatprogress p).other.width = none := by
  simp [formatprogress, jsDiv, h]

/-- Claim C9 witness: at a concrete record with `njobs = 0` the completed
segment percentage is non-finite. -/
theorem formatprogress_njobs_zero_nonfinite_witness :
    (formatprogress zeroJob).completed.width = none :=
  (formatprogress_njobs_zero_nonfinite zeroJob rfl).1

/-- The reschedule glyph is never the empty string. -/
theorem rescheduleGlyph_ne_empty (macroid request_id : ℕ) :
    rescheduleGlyph macroid request_id ≠ "" := by
  intro h
  have hlen := congrArg String.length h
  simp [rescheduleGlyph, String.length_append] at hlen
  exact absurd hlen.1.1.1.1 (by decide)

/-- Claim C5 counterexample: on the row with raw status "Rescheduled" and
reschedule flag false, the renderer returns "Rescheduled" although the flag
is false, so "returns \"Rescheduled\" iff the reschedule flag is true" fails. -/
theorem statusRender_iff_fails_on_clash :
    ¬ (statusRender statusClashRow = "Rescheduled" ↔ statusClashRow.reschedule = true) := by
  decide

/-- Claim C5 amended: the renderer returns "Rescheduled" when the reschedule
flag is true and the raw status string when it is false; consequently, for
rows whose raw status is not itself "Rescheduled", the output is
"Rescheduled" iff the flag is true. -/
theorem statusRender_spec (row : ParametricJob) :
    (row.reschedule = true → statusRender row = "Rescheduled") ∧
    (row.reschedule = false → statusRender row = row.status) ∧
    (row.status ≠ "Rescheduled" →
      (statusRender row = "Rescheduled" ↔ row.reschedule = true)) := by
  refine ⟨fun h => by simp [statusRender, h], fun h => by simp [statusRender, h], fun hs => ?_⟩
  cases hrf : row.reschedule <;> simp [statusRender, hrf, hs]

/-- Claim C5 witness: on a concrete flagged row the renderer shows
"Rescheduled", and on a concrete unflagged row it shows the raw status. -/
theorem statusRender_spec_witness :
    statusRender { exampleJob with reschedule := true } = "Rescheduled" ∧
    statusRender exampleJob = "Running" :=
  ⟨(statusRender_spec { exampleJob with reschedule := true }).1 rfl,
   (statusRender_spec exampleJob).2.1 rfl⟩

/-- Claim C6: the "reschedule" column renders the clickable glyph carrying the
macro id and request id of the row exactly when its status is "Failed", and
the empty string otherwise. -/
theorem rescheduleRender_iff_failed (row : ParametricJob) :
    (rescheduleRender row = rescheduleGlyph row.id row.request_id ↔
      row.status = "Failed") ∧
    (row.status ≠ "Failed" → rescheduleRender row = "") := by
  constructor
  · constructor
    · intro h
      by_contra hs
      rw [rescheduleRender, if_neg hs] at h
      exact rescheduleGlyph_ne_empty row.id row.request_id h.symm
    · intro hs
      rw [rescheduleRender, if_pos hs]
  · intro hs
    rw [rescheduleRender, if_neg hs]

/-- Claim C6 witness: a concrete "Failed" row renders the glyph with its ids,
and a concrete non-"Failed" row renders the empty string. -/
theorem rescheduleRender_iff_failed_witness :
    rescheduleRender { exampleJob with status := "Failed" } = rescheduleGlyph 1 1 ∧
    rescheduleRender exampleJob = "" :=
  ⟨(rescheduleRender_iff_failed { exampleJob with status := "Failed" }).1.mpr rfl,
   (rescheduleRender_iff_failed exampleJob).2 (by decide)⟩

/-- The state of the selection manager: the `last_selected` row index (initially 0)
and the set of row indices currently carrying the "selected" class. -/
structure SelState where
  last_selected : ℕ
  selected : Finset ℕ
deriving DecidableEq

/-- The `Array.prototype.slice` index normalisation for a collection of `n`
elements: a negative index counts from the end, a non-negative one is clamped
to `n`. -/
def relIndex (n : ℕ) (x : ℤ) : ℕ :=
  if x < 0 then (x + n).toNat else min x.toNat n

/-- jQuery `.slice(a, b)` on a collection of `n` rows: the set of row indices
kept, per `Array.prototype.slice` semantics. -/
def jqSlice (n : ℕ) (a b : ℤ) : Finset ℕ :=
  (Finset.range n).filter fun k => relIndex n a ≤ k ∧ k < relIndex n b

/-- The `#tableBody tbody` row click handler (`index.js` lines 177–194) on a
table of `n` rows: a plain click removes "selected" from every row; a
shift-click adds "selected" to `slice(new - (n-1), last - (n-1) - 1)` when
`new < last` and to `slice(last + 1, new)`; then the "selected" class of the clicked row
is toggled and `last_selected` becomes the clicked index. -/
def rowClick (n : ℕ) (ctrlKey shiftKey : Bool) (st : SelState) (new_selected : ℕ) : SelState :=
  let sel₁ :=
    if !ctrlKey && !shiftKey then (∅ : Finset ℕ)
    else if shiftKey then
      let sel₀ :=
        if new_selected < st.last_selected then
          st.selected ∪ jqSlice n ((new_selected : ℤ) - ((n : ℤ) - 1))
            ((st.last_selected : ℤ) - ((n : ℤ) - 1) - 1)
        else st.selected
      sel₀ ∪ jqSlice n ((st.last_selected : ℤ) + 1) (new_selected : ℤ)
    else st.selected
  ⟨new_selected,
    if new_selected ∈ sel₁ then sel₁.erase new_selected else insert new_selected sel₁⟩

/-- The call `slice(last + 1, new)` with in-range non-negative endpoints keeps exactly
the indices strictly between `last` and `new`. -/
theorem jqSlice_forward (n i j : ℕ) (hj : j ≤ n) :
    jqSlice n ((i : ℤ) + 1) (j : ℤ) = Finset.Ico (i + 1) j := by
  ext k
  simp only [jqSlice, relIndex, Finset.mem_filter, Finset.mem_range, Finset.mem_Ico]
  split_ifs <;> omega

/-- The call `slice(new - (n-1), last - (n-1) - 1)` with `new < last < n` resolves,
through negative-index normalisation, to the indices strictly between
`new` and `last`. -/
theorem jqSlice_backward (n i j : ℕ) (hji : j < i) (hin : i < n) :
    jqSlice n ((j : ℤ) - ((n : ℤ) - 1)) ((i : ℤ) - ((n : ℤ) - 1) - 1) =
      Finset.Ico (j + 1) i := by
  ext k
  simp only [jqSlice, relIndex, Finset.mem_filter, Finset.mem_range, Finset.mem_Ico]
  split_ifs <;> omega

/-- A plain click (no ctrl, no shift) clears the selection and toggles the
clicked row on, leaving exactly that row selected. -/
theorem rowClick_plain (n : ℕ) (st : SelState) (i : ℕ) :
    rowClick n false false st i = ⟨i, {i}⟩ := by
  simp [rowClick]

/-- Claim C4 counterexample: on a 1-row table, a plain click on row 0 followed
by a shift-click on the same row 0 leaves the empty selection, not the claimed
range `[min(0,0), max(0,0)] = {0}`: the handler toggles the already-selected
row off. -/
theorem rowClick_shift_same_row_fails :
    (rowClick 1 false true (rowClick 1 false false ⟨0, ∅⟩ 0) 0).selected = ∅ ∧
    (rowClick 1 false true (rowClick 1 false false ⟨0, ∅⟩ 0) 0).selected ≠
      Finset.Icc (min 0 0) (max 0 0) := by
  constructor
  · decide
  · decide

/-- Claim C4 amended: a plain click on row `i` leaves exactly `{i}` selected,
and for two distinct indices `i ≠ j`, a shift-click on row `j` immediately
after a plain click on row `i` leaves exactly the contiguous range
`[min(i,j), max(i,j)]` selected. (For `i = j` the shift-click instead toggles
the row off, leaving the empty selection.) -/
theorem rowClick_plain_then_shift (n i j : ℕ) (st : SelState)
    (hi : i < n) (hj : j < n) (hij : i ≠ j) :
    (rowClick n false false st i).selected = {i} ∧
    (rowClick n false true (rowClick n false false st i) j).selected =
      Finset.Icc (min i j) (max i j) := by
  rw [rowClick_plain]
  refine ⟨rfl, ?_⟩
  rcases Nat.lt_or_ge j i with hlt | hge
  · have hij2 : j < i := hlt
    simp only [rowClick, Bool.not_false, Bool.not_true, Bool.and_false, Bool.false_and,
      Bool.and_self, if_true, if_false, Bool.false_eq_true, if_pos hij2]
    rw [jqSlice_backward n i j hij2 hi, jqSlice_forward n i j (le_of_lt hj)]
    have hnotmem : j ∉ ({i} : Finset ℕ) ∪ Finset.Ico (j + 1) i ∪ Finset.Ico (i + 1) j := by
      simp only [Finset.mem_union, Finset.mem_singleton, Finset.mem_Ico]
      omega
    rw [if_neg hnotmem]
    ext k
    simp only [Finset.mem_insert, Finset.mem_union, Finset.mem_singleton, Finset.mem_Ico,
      Finset.mem_Icc, min_def, max_def]
    split_ifs <;> omega
  · have hij2 : i < j := lt_of_le_of_ne hge hij
    have hnl : ¬ j < i := by omega
    simp only [rowClick, Bool.not_false, Bool.not_true, Bool.and_false, Bool.false_and,
      Bool.and_self, if_true, if_false, Bool.false_eq_true, if_neg hnl]
    rw [jqSlice_forward n i j (le_of_lt hj)]
    have hnotmem : j ∉ ({i} : Finset ℕ) ∪ Finset.Ico (i + 1) j := by
      simp only [Finset.mem_union, Finset.mem_singleton, Finset.mem_Ico]
      omega
    rw [if_neg hnotmem]
    ext k
    simp only [Finset.mem_insert, Finset.mem_union, Finset.mem_singleton, Finset.mem_Ico,
      Finset.mem_Icc, min_def, max_def]
    split_ifs <;> omega

/-- Claim C4 witness: on a 5-row table, plain click on row 3 selects exactly
row 3, and a following shift-click on row 1 selects exactly rows 1, 2, 3. -/
theorem rowClick_plain_then_shift_witness :
    (rowClick 5 false false ⟨0, ∅⟩ 3).selected = {3} ∧
    (rowClick 5 false true (rowClick 5 false false ⟨0, ∅⟩ 3) 1).selected =
      Finset.Icc (min 3 1) (max 3 1) :=
  rowClick_plain_then_shift 5 3 1 ⟨0, ∅⟩ (by decide) (by decide) (by decide)

/-- An observable effect of the UI code: an issued AJAX request, the
settlement of the request at a given position of the batch (`true` =
resolved, `false` = rejected), the grid reload, the notification banner, or
the bootbox confirmation dialog. -/
inductive Event where
  | ajaxCall (method : String) (url : String) (data : List (String × String))
  | settle (index : ℕ) (success : Bool)
  | reloadTable
  | banner (title message level : String)
  | confirmDialog (message : String)
deriving DecidableEq, Repr

/-- The PUT issued by the approve action for one id:
`$.ajax({url: "/requests/" + ids[i], type: "PUT", data: {"status": "Approved"}})`. -/
def approveCall (id : ℕ) : Event :=
  Event.ajaxCall ("PUT") ("/requests/" ++ toString id) [("status", "Approved")]

/-- The DELETE issued by the delete action for one id:
`$.ajax({url: "/requests/" + ids[i], type: "DELETE"})`. -/
def deleteCall (id : ℕ) : Event :=
  Event.ajaxCall ("DELETE") ("/requests/" ++ toString id) []

/-- One settlement event per issued request, in batch order. -/
def settleEvents (outcomes : List Bool) : List Event :=
  outcomes.enum.map fun p => Event.settle p.1 p.2

/-- jQuery `$.when.apply(this, ajax_calls).done(cont)`: the `done`
continuation runs exactly when every joined deferred resolves; if any call
rejects, the aggregate rejects and `cont` is skipped. -/
def whenDone (outcomes : List Bool) (cont : List Event) : List Event :=
  if outcomes.all (fun o => o = true) then cont else []

/-- The `#contextApprove` click action (`index.js` lines 261–274) on the
stored id list: one PUT per id, then the batch settles, then — only if every
call resolved — the grid reload and the count banner. -/
def contextApproveTrace (ids : List ℕ) (outcomes : List Bool) : List Event :=
  ids.map approveCall ++ settleEvents outcomes ++
    whenDone outcomes
      [Event.reloadTable,
       Event.banner ("Info!") ("Approved " ++ toString ids.length ++ " request(s)") ("alert-info")]

/-- The `#contextDelete` click action (`index.js` lines 276–288): one DELETE
per id, then the batch settles, then — only if every call resolved — the grid
reload and the count banner. -/
def contextDeleteTrace (ids : List ℕ) (outcomes : List Bool) : List Event :=
  ids.map deleteCall ++ settleEvents outcomes ++
    whenDone outcomes
      [Event.reloadTable,
       Event.banner ("Attention!") ("Deleted " ++ toString ids.length ++ " request(s)") ("alert-danger")]

/-- The body keypress handler (`index.js` lines 293–312): on keyCode 46 with a
non-empty selection, open a confirmation dialog; if confirmed, issue one
DELETE per selected id, and after the batch resolves reload the grid and show
a banner counting the issued calls (`ajax_calls.length`). -/
def deleteKeyTrace (keyCode : ℕ) (selectedIds : List ℕ) (confirmResult : Bool)
    (outcomes : List Bool) : List Event :=
  if keyCode = 46 then
    if selectedIds.length = 0 then []
    else
      Event.confirmDialog ("Really delete " ++ toString selectedIds.length ++ " request(s)?") ::
        (if confirmResult then
          selectedIds.map deleteCall ++ settleEvents outcomes ++
            whenDone outcomes
              [Event.reloadTable,
               Event.banner ("Attention!")
                 ("Deleted " ++ toString selectedIds.length ++ " requests") ("alert-danger")]
        else [])
  else []

/-- Recogniser for issued AJAX requests in a trace. -/
def isAjaxEvent : Event → Bool
  | Event.ajaxCall _ _ _ => true
  | _ => false

/-- Recogniser for settlement events in a trace. -/
def isSettleEvent : Event → Bool
  | Event.settle _ _ => true
  | _ => false

/-- Recogniser for the `done`-continuation effects (grid reload, banner). -/
def isDoneEvent : Event → Bool
  | Event.reloadTable => true
  | Event.banner _ _ _ => true
  | _ => false

/-- A handler value passed to `setInterval`: the result of evaluating the
first argument expression, which the timer can only run if it is callable. -/
inductive TimerHandler where
  | callable
  | notCallable
deriving DecidableEq, Repr

/-- The function `refresh_table` (`index.js` lines 33–58) has no return statement, so the
call expression `refresh_table()` evaluates to `undefined`, which is not
callable. -/
def refresh_table_result : TimerHandler := TimerHandler.notCallable

/-- How many times `setInterval` runs its scheduled handler over `ticks`
timer expirations: once per tick if the handler is callable, never otherwise. -/
def timerRuns : TimerHandler → ℕ → ℕ
  | TimerHandler.callable, ticks => ticks
  | TimerHandler.notCallable, _ => 0

/-- Invocations of `refresh_table` caused by the startup line
`setInterval(refresh_table(), 300000)` (`index.js` line 108) after `ticks`
timer expirations: the argument expression invokes it once eagerly, and the
timer then holds only the `undefined` result of the call. -/
def refresh_table_invocations (ticks : ℕ) : ℕ :=
  1 + timerRuns refresh_table_result ticks

/-- A JavaScript runtime error raised while evaluating an expression. -/
inductive JsError where
  | referenceError (name : String)
deriving DecidableEq, Repr

/-- The identifiers visible inside the `refresh_subtable` success callback
(`index.js` lines 74–104): its own parameters, the enclosing
`refresh_subtable` parameter, the functions and variables of the
`$(document).ready` closure, and the implicit global `columns`.
`parametricjob` is only a parameter of `formatprogress` and is NOT in scope. -/
def subtableSuccessScope : List String :=
  ["response", "status", "request", "request_id", "columns",
   "formatprogress", "refresh_table", "refresh_subtable", "last_selected", "bootstrap_alert"]

/-- Evaluating an identifier in the success-callback scope: an unbound name
raises a `ReferenceError`. -/
def evalVar (x : String) : Except JsError Unit :=
  if x ∈ subtableSuccessScope then Except.ok () else Except.error (JsError.referenceError x)

/-- The child grid initialization performed at the end of the success
callback, scoped to the per-request container element. -/
structure SubtableInit where
  container : String
deriving DecidableEq, Repr

/-- The `refresh_subtable` success callback (`index.js` lines 74–104): it
first evaluates the `columns` array literal, whose `defaultContent` template
literal reads `parametricjob.id` and `request_id`, and only then calls
`$(`#subtable-${request_id}`).DataTable(...)`. -/
def refresh_subtable_success (request_id : ℕ) : Except JsError SubtableInit := do
  _ ← evalVar ("parametricjob")
  _ ← evalVar ("request_id")
  Except.ok { container := "subtable-" ++ toString request_id }

/-- Claim C3: the startup line `setInterval(refresh_table(), 300000)` invokes
`refresh_table` exactly once, eagerly; the timer receives the `undefined`
return value of that call instead of the function, so however many 5-minute
ticks elapse, no further invocation ever occurs. -/
theorem refresh_table_invoked_exactly_once (ticks : ℕ) :
    refresh_table_invocations ticks = 1 := rfl

/-- Claim C2 (code bug): for every request id, the sub-table success callback
stops with `ReferenceError: parametricjob is not defined` while evaluating the
`defaultContent` template of its `columns` array, so the child grid in
`#subtable-{request_id}` is never initialized. -/
theorem refresh_subtable_success_reference_error (request_id : ℕ) :
    refresh_subtable_success request_id =
      Except.error (JsError.referenceError ("parametricjob")) := rfl

/-- None of the PUT requests mapped from the id list is a reload or banner. -/
theorem approveCall_not_done (ids : List ℕ) :
    ∀ e ∈ ids.map approveCall, isDoneEvent e = false := by
  intro e he
  rcases List.mem_map.mp he with ⟨id, _, rfl⟩
  rfl

/-- None of the DELETE requests mapped from the id list is a reload or banner. -/
theorem deleteCall_not_done (ids : List ℕ) :
    ∀ e ∈ ids.map deleteCall, isDoneEvent e = false := by
  intro e he
  rcases List.mem_map.mp he with ⟨id, _, rfl⟩
  rfl

/-- Settlement events are neither reloads nor banners. -/
theorem settleEvents_not_done (outcomes : List Bool) :
    ∀ e ∈ settleEvents outcomes, isDoneEvent e = false := by
  intro e he
  rcases List.mem_map.mp he with ⟨p, _, rfl⟩
  rfl

/-- The join continuation contains no settlement events. -/
theorem whenDone_not_settle (outcomes : List Bool) (t m l : String) :
    ∀ e ∈ whenDone outcomes [Event.reloadTable, Event.banner t m l],
      isSettleEvent e = false := by
  intro e he
  rw [whenDone] at he
  split at he <;> simp at he
  rcases he with rfl | rfl <;> rfl

/-- The issued requests are exactly the mapped calls: settlement events and
the continuation contribute no AJAX requests. -/
theorem trace_filter_ajax (A : List Event) (outcomes : List Bool) (t m l : String)
    (hA : ∀ e ∈ A, isAjaxEvent e = true) :
    (A ++ settleEvents outcomes ++
      whenDone outcomes [Event.reloadTable, Event.banner t m l]).filter isAjaxEvent = A := by
  rw [List.filter_append, List.filter_append, List.filter_eq_self.mpr hA]
  have hS : (settleEvents outcomes).filter isAjaxEvent = [] := by
    refine List.filter_eq_nil_iff.mpr ?_
    intro e he
    rcases List.mem_map.mp he with ⟨p, _, rfl⟩
    simp [isAjaxEvent]
  have hW : (whenDone outcomes [Event.reloadTable, Event.banner t m l]).filter
      isAjaxEvent = [] := by
    rw [whenDone]
    split <;> rfl
  rw [hS, hW]
  simp

/-- An index below the length of the first block selects an element of it. -/
theorem get_append_mem_first {α : Type} (A B : List α) (i : ℕ)
    (hi : i < (A ++ B).length) (h : i < A.length) :
    (A ++ B).get ⟨i, hi⟩ ∈ A := by
  rw [List.get_eq_getElem, List.getElem_append_left h]
  exact List.getElem_mem h

/-- An index at or beyond the length of the first block selects an element of the
second block. -/
theorem get_append_mem_right {α : Type} (A B : List α) (i : ℕ)
    (hi : i < (A ++ B).length) (h : A.length ≤ i) :
    (A ++ B).get ⟨i, hi⟩ ∈ B := by
  rw [List.get_eq_getElem, List.getElem_append_right h]
  exact List.getElem_mem _

/-- In a trace laid out as issued calls, then settlements, then the join
continuation, every settlement event strictly precedes every continuation
effect (reload or banner). -/
theorem settle_precedes_done (A S C : List Event)
    (hA : ∀ e ∈ A, isDoneEvent e = false)
    (hS : ∀ e ∈ S, isDoneEvent e = false)
    (hC : ∀ e ∈ C, isSettleEvent e = false)
    (i j : ℕ) (hi : i < (A ++ S ++ C).length) (hj : j < (A ++ S ++ C).length)
    (hsettle : isSettleEvent ((A ++ S ++ C).get ⟨i, hi⟩) = true)
    (hdone : isDoneEvent ((A ++ S ++ C).get ⟨j, hj⟩) = true) : i < j := by
  have hiAS : i < (A ++ S).length := by
    by_contra hge
    push_neg at hge
    have hmem := get_append_mem_right (A ++ S) C i hi hge
    rw [hC _ hmem] at hsettle
    exact Bool.noConfusion hsettle
  have hjAS : (A ++ S).length ≤ j := by
    by_contra hlt
    push_neg at hlt
    have hmem := get_append_mem_first (A ++ S) C j hj hlt
    rcases List.mem_append.mp hmem with h | h
    · rw [hA _ h] at hdone
      exact Bool.noConfusion hdone
    · rw [hS _ h] at hdone
      exact Bool.noConfusion hdone
  exact lt_of_lt_of_le hiAS hjAS

/-- The mapped PUT requests contain no continuation effect. -/
theorem map_approveCall_any_done (ids : List ℕ) :
    (ids.map approveCall).any isDoneEvent = false :=
  List.any_eq_false.mpr fun e he => by rw [approveCall_not_done ids e he]; simp

/-- The mapped DELETE requests contain no continuation effect. -/
theorem map_deleteCall_any_done (ids : List ℕ) :
    (ids.map deleteCall).any isDoneEvent = false :=
  List.any_eq_false.mpr fun e he => by rw [deleteCall_not_done ids e he]; simp

/-- The settlement events contain no continuation effect. -/
theorem settleEvents_any_done (outcomes : List Bool) :
    (settleEvents outcomes).any isDoneEvent = false :=
  List.any_eq_false.mpr fun e he => by rw [settleEvents_not_done outcomes e he]; simp

/-- Variant of `settle_precedes_done`, phrased for a trace given by a defining equation. -/
theorem settle_precedes_done_eq (T A S C : List Event) (hT : T = A ++ S ++ C)
    (hA : ∀ e ∈ A, isDoneEvent e = false)
    (hS : ∀ e ∈ S, isDoneEvent e = false)
    (hC : ∀ e ∈ C, isSettleEvent e = false)
    (i j : ℕ) (hi : i < T.length) (hj : j < T.length)
    (hsettle : isSettleEvent (T.get ⟨i, hi⟩) = true)
    (hdone : isDoneEvent (T.get ⟨j, hj⟩) = true) : i < j := by
  subst hT
  exact settle_precedes_done A S C hA hS hC i j hi hj hsettle hdone

/-- Claim C7: for a non-empty selected id list, the approve action issues
exactly one PUT `/requests/{id}` (body `status="Approved"`) per id, in order,
and the delete action exactly one DELETE `/requests/{id}` per id; in both
traces every settlement strictly precedes the grid reload and the count
banner, so the continuation never runs before the batch has settled. -/
theorem context_menu_one_call_per_id_then_reload (ids : List ℕ) (outcomes : List Bool)
    (hne : ids ≠ []) (hlen : outcomes.length = ids.length) :
    (contextApproveTrace ids outcomes).filter isAjaxEvent = ids.map approveCall ∧
    (contextDeleteTrace ids outcomes).filter isAjaxEvent = ids.map deleteCall ∧
    (∀ i j (hi : i < (contextApproveTrace ids outcomes).length)
        (hj : j < (contextApproveTrace ids outcomes).length),
        isSettleEvent ((contextApproveTrace ids outcomes).get ⟨i, hi⟩) = true →
        isDoneEvent ((contextApproveTrace ids outcomes).get ⟨j, hj⟩) = true → i < j) ∧
    (∀ i j (hi : i < (contextDeleteTrace ids outcomes).length)
        (hj : j < (contextDeleteTrace ids outcomes).length),
        isSettleEvent ((contextDeleteTrace ids outcomes).get ⟨i, hi⟩) = true →
        isDoneEvent ((contextDeleteTrace ids outcomes).get ⟨j, hj⟩) = true → i < j) := by
  refine ⟨?_, ?_, ?_, ?_⟩
  · exact trace_filter_ajax (ids.map approveCall) outcomes ("Info!")
      ("Approved " ++ toString ids.length ++ " request(s)") ("alert-info")
      (fun e he => by rcases List.mem_map.mp he with ⟨id, _, rfl⟩; rfl)
  · exact trace_filter_ajax (ids.map deleteCall) outcomes ("Attention!")
      ("Deleted " ++ toString ids.length ++ " request(s)") ("alert-danger")
      (fun e he => by rcases List.mem_map.mp he with ⟨id, _, rfl⟩; rfl)
  · intro i j hi hj hs hd
    exact settle_precedes_done_eq (contextApproveTrace ids outcomes)
      (ids.map approveCall) (settleEvents outcomes)
      (whenDone outcomes [Event.reloadTable,
        Event.banner ("Info!") ("Approved " ++ toString ids.length ++ " request(s)") ("alert-info")])
      rfl (approveCall_not_done ids) (settleEvents_not_done outcomes)
      (whenDone_not_settle outcomes _ _ _) i j hi hj hs hd
  · intro i j hi hj hs hd
    exact settle_precedes_done_eq (contextDeleteTrace ids outcomes)
      (ids.map deleteCall) (settleEvents outcomes)
      (whenDone outcomes [Event.reloadTable,
        Event.banner ("Attention!") ("Deleted " ++ toString ids.length ++ " request(s)") ("alert-danger")])
      rfl (deleteCall_not_done ids) (settleEvents_not_done outcomes)
      (whenDone_not_settle outcomes _ _ _) i j hi hj hs hd

/-- Claim C7 witness: for ids `[1, 2]` with both calls resolving, the approve
trace issues exactly the two PUT requests and the delete trace exactly the two
DELETE requests, in order. -/
theorem context_menu_one_call_per_id_then_reload_witness :
    (contextApproveTrace [1, 2] [true, true]).filter isAjaxEvent =
      [approveCall 1, approveCall 2] ∧
    (contextDeleteTrace [1, 2] [true, true]).filter isAjaxEvent =
      [deleteCall 1, deleteCall 2] :=
  ⟨(context_menu_one_call_per_id_then_reload [1, 2] [true, true] (by decide) rfl).1,
   (context_menu_one_call_per_id_then_reload [1, 2] [true, true] (by decide) rfl).2.1⟩

/-- Claim C8: in both batch actions the reload-and-banner continuation runs
exactly when every request in the batch resolves; any single rejection makes
the aggregate join reject, skipping the continuation entirely (no reload, no
banner, no per-item recovery). -/
theorem batch_failure_skips_continuation (ids : List ℕ) (outcomes : List Bool)
    (hlen : outcomes.length = ids.length) :
    ((contextApproveTrace ids outcomes).any isDoneEvent = true ↔
      outcomes.all (fun o => o = true) = true) ∧
    ((contextDeleteTrace ids outcomes).any isDoneEvent = true ↔
      outcomes.all (fun o => o = true) = true) := by
  rcases Bool.eq_false_or_eq_true (outcomes.all (fun o => o = true)) with hc | hc
  · have hw : ∀ cont : List Event, whenDone outcomes cont = cont := by
      intro cont
      rw [whenDone, hc]
      simp
    have hLA : (contextApproveTrace ids outcomes).any isDoneEvent = true := by
      rw [contextApproveTrace, List.any_append, List.any_append,
        map_approveCall_any_done, settleEvents_any_done, hw]
      rfl
    have hLD : (contextDeleteTrace ids outcomes).any isDoneEvent = true := by
      rw [contextDeleteTrace, List.any_append, List.any_append,
        map_deleteCall_any_done, settleEvents_any_done, hw]
      rfl
    rw [hLA, hLD, hc]
    exact ⟨Iff.rfl, Iff.rfl⟩
  · have hw : ∀ cont : List Event, whenDone outcomes cont = [] := by
      intro cont
      rw [whenDone, hc]
      simp
    have hLA : (contextApproveTrace ids outcomes).any isDoneEvent = false := by
      rw [contextApproveTrace, List.any_append, List.any_append,
        map_approveCall_any_done, settleEvents_any_done, hw, List.any_nil]
      rfl
    have hLD : (contextDeleteTrace ids outcomes).any isDoneEvent = false := by
      rw [contextDeleteTrace, List.any_append, List.any_append,
        map_deleteCall_any_done, settleEvents_any_done, hw, List.any_nil]
      rfl
    rw [hLA, hLD, hc]
    exact ⟨Iff.rfl, Iff.rfl⟩

/-- Claim C8 witness: with the single call of the batch rejecting, neither the
approve nor the delete trace contains a reload or banner event. -/
theorem batch_failure_skips_continuation_witness :
    ((contextApproveTrace [7] [false]).any isDoneEvent = true ↔
      ([false].all (fun o => o = true)) = true) ∧
    ((contextDeleteTrace [7] [false]).any isDoneEvent = true ↔
      ([false].all (fun o => o = true)) = true) :=
  batch_failure_skips_continuation [7] [false] rfl

/-- Claim C10: on keyCode 46 the handler first opens the confirmation dialog
when the selection is non-empty; a declined confirmation stops after the
dialog with no request issued; a confirmed one issues exactly one DELETE
`/requests/{id}` per selected id, and once every call resolves the trace
contains the grid reload and the banner counting the issued calls; an empty
selection produces no effect at all, and any rejected call suppresses both
reload and banner. -/
theorem delete_key_confirm_then_delete (selectedIds : List ℕ) (confirmResult : Bool)
    (outcomes : List Bool) (hlen : outcomes.length = selectedIds.length) :
    (selectedIds = [] → deleteKeyTrace 46 selectedIds confirmResult outcomes = []) ∧
    (selectedIds ≠ [] →
      ∃ rest, deleteKeyTrace 46 selectedIds confirmResult outcomes =
        Event.confirmDialog
          ("Really delete " ++ toString selectedIds.length ++ " request(s)?") :: rest) ∧
    (selectedIds ≠ [] → confirmResult = false →
      deleteKeyTrace 46 selectedIds confirmResult outcomes =
        [Event.confirmDialog
          ("Really delete " ++ toString selectedIds.length ++ " request(s)?")]) ∧
    (selectedIds ≠ [] → confirmResult = true →
      (deleteKeyTrace 46 selectedIds confirmResult outcomes).filter isAjaxEvent =
        selectedIds.map deleteCall) ∧
    (selectedIds ≠ [] → confirmResult = true →
      outcomes.all (fun o => o = true) = true →
      Event.reloadTable ∈ deleteKeyTrace 46 selectedIds confirmResult outcomes ∧
      Event.banner ("Attention!") ("Deleted " ++ toString selectedIds.length ++ " requests")
        ("alert-danger") ∈ deleteKeyTrace 46 selectedIds confirmResult outcomes) ∧
    (outcomes.all (fun o => o = true) = false →
      (deleteKeyTrace 46 selectedIds confirmResult outcomes).any isDoneEvent = false) := by
  by_cases hids : selectedIds = []
  · subst hids
    exact ⟨fun _ => rfl, fun h => absurd rfl h, fun h => absurd rfl h,
      fun h => absurd rfl h, fun h => absurd rfl h, fun _ => rfl⟩
  · have hlen0 : ¬ selectedIds.length = 0 := by
      simpa [List.length_eq_zero] using hids
    have htrace : deleteKeyTrace 46 selectedIds confirmResult outcomes =
        Event.confirmDialog
          ("Really delete " ++ toString selectedIds.length ++ " request(s)?") ::
          (if confirmResult then
            selectedIds.map deleteCall ++ settleEvents outcomes ++
              whenDone outcomes
                [Event.reloadTable,
                 Event.banner ("Attention!")
                   ("Deleted " ++ toString selectedIds.length ++ " requests") ("alert-danger")]
          else []) := by
      rw [deleteKeyTrace, if_pos rfl, if_neg hlen0]
    refine ⟨fun h => absurd h hids, fun _ => ⟨_, htrace⟩, ?_, ?_, ?_, ?_⟩
    · intro _ hconf
      rw [htrace, hconf]
      rfl
    · intro _ hconf
      rw [htrace, hconf, if_pos rfl]
      rw [List.filter_cons_of_neg (by simp [isAjaxEvent])]
      exact trace_filter_ajax (selectedIds.map deleteCall) outcomes ("Attention!")
        ("Deleted " ++ toString selectedIds.length ++ " requests") ("alert-danger")
        (fun e he => by rcases List.mem_map.mp he with ⟨id, _, rfl⟩; rfl)
    · intro _ hconf hall
      have hw : whenDone outcomes
          [Event.reloadTable,
           Event.banner ("Attention!")
             ("Deleted " ++ toString selectedIds.length ++ " requests") ("alert-danger")] =
          [Event.reloadTable,
           Event.banner ("Attention!")
             ("Deleted " ++ toString selectedIds.length ++ " requests") ("alert-danger")] := by
        rw [whenDone, hall]
        simp
      rw [htrace, hconf, if_pos rfl, hw]
      constructor <;> simp [List.mem_append]
    · intro hall
      rw [htrace]
      have hw : ∀ cont : List Event, whenDone outcomes cont = [] := by
        intro cont
        rw [whenDone, hall]
        simp
      cases hconf : confirmResult
      · rfl
      · rw [if_pos rfl, hw]
        rw [List.any_cons, List.any_append, List.any_append,
          map_deleteCall_any_done, settleEvents_any_done, List.any_nil]
        rfl

/-- Claim C10 witness: pressing Delete with the single selected id 5,
confirming, and the call resolving: the trace opens with the confirmation
dialog, issues exactly the one DELETE, and contains reload and banner. -/
theorem delete_key_confirm_then_delete_witness :
    (deleteKeyTrace 46 [5] true [true]).filter isAjaxEvent = [deleteCall 5] ∧
    (Event.reloadTable ∈ deleteKeyTrace 46 [5] true [true] ∧
      Event.banner ("Attention!") ("Deleted " ++ toString ([5] : List ℕ).length ++ " requests")
        ("alert-danger") ∈ deleteKeyTrace 46 [5] true [true]) :=
  ⟨(delete_key_confirm_then_delete [5] true [true] rfl).2.2.2.1 (by decide) rfl,
   (delete_key_confirm_then_delete [5] true [true] rfl).2.2.2.2.1 (by decide) rfl rfl⟩
